import Mathlib

/-!
Shallow embedding of the nappio-backend webhook reconciliation pipeline.

The persistence gateway (Supabase) is modelled as lists of rows per
collection; `insert` appends, `update ... eq(k, v)` maps over rows and
returns the updated matching rows, `select ... eq(k, v)` filters.
Timestamps (`datetime`) are modelled as `Int` Unix timestamps; a Python
`Optional[datetime]` is `Option Int` (a `datetime` object is always
truthy, `None` is falsy, and an `int` timestamp is falsy exactly when it
is zero).  External collaborators (Stripe retrieval, the identity
provider's admin lookup, the mail gateway) are fields of an `Env` of
functions; a `none`/`Except.error` result models the client raising.
A handler outcome carries the database state at return OR at raise time
(Python has no rollback: mutations performed before an exception
persist), the emails attempted, and the propagated exception if any.
-/

/-- Row of the `checkout_sessions` collection (io_db.insert_checkout_session). -/
structure CheckoutSessionRow where
  session_id : String
  user_id : String
  customer_id : String
  price_id : String
  status : String
deriving Repr, DecidableEq

/-- Row of the `user_subscriptions` collection (io_db.insert_user_subscription). -/
structure UserSubscriptionRow where
  user_id : String
  plan_id : String
  price_id : String
  customer_id : String
  subscription_id : String
  status : String
  subscribed_at : Int
  last_payment_date : Option Int
  next_payment_date : Option Int
  cancelled_at : Option Int
deriving Repr, DecidableEq

/-- Row of the `newsletter_subscribers` collection (io_db.NewsletterSubscriber). -/
structure NewsletterSubscriberRow where
  first_name : String
  email : String
  postcode : Option String
  subscribed_at : Int
  email_verified : Bool
deriving Repr, DecidableEq

/-- Row of the `user_addresses` collection (io_db.UserAddress). -/
structure UserAddressRow where
  user_id : String
  address_line_1 : String
  address_line_2 : Option String
  city : String
  postcode : String
  country : String
  address_notes : Option String
deriving Repr, DecidableEq

/-- The persisted state: every collection the backend touches. -/
structure DB where
  newsletter_subscribers : List NewsletterSubscriberRow
  checkout_sessions : List CheckoutSessionRow
  user_subscriptions : List UserSubscriptionRow
  user_addresses : List UserAddressRow
deriving Repr, DecidableEq

/-- A Stripe price object as the handlers read it: `price['id']`,
`price['metadata']['plan_id']` (a `none` models the key being absent,
which raises KeyError), `price['product']`, `price['unit_amount']`,
`price['currency']`. -/
structure StripePrice where
  id : String
  metadata_plan_id : Option String
  product : String
  unit_amount : Int
  currency : String
deriving Repr, DecidableEq

/-- One element of `subscription['items']['data']`. -/
structure StripeSubItem where
  price : StripePrice
  current_period_start : Int
  current_period_end : Int
deriving Repr, DecidableEq

/-- A Stripe subscription object (either re-fetched or embedded in the
event payload).  `canceled_at` is a nullable Unix timestamp;
`metadata_user_id` is `subscription.metadata['user_id']`, `none` when
the key is absent (access then raises KeyError). -/
structure StripeSubscription where
  id : String
  customer : String
  status : String
  created : Int
  canceled_at : Option Int
  metadata_user_id : Option String
  items : List StripeSubItem
deriving Repr, DecidableEq

/-- A Stripe checkout-session object as handle_checkout_completed reads
it from the provider: `session.id`, `session.status`. -/
structure StripeSession where
  id : String
  status : String
deriving Repr, DecidableEq

/-- The `data.object` of a webhook event: either a checkout-session
payload or a full subscription object. -/
inductive EventObject where
  | checkout (c : StripeSession)
  | subscription (s : StripeSubscription)
deriving Repr, DecidableEq

/-- `event.data['object']['id']` / `event.data['object'].id`: both
payload shapes carry an `id`. -/
def EventObject.objId : EventObject → String
  | .checkout c => c.id
  | .subscription s => s.id

/-- webhook_handlers.WebhookEvent (created is a Unix timestamp). -/
structure WebhookEvent where
  id : String
  type : String
  data : EventObject
  created : Int
deriving Repr, DecidableEq

/-- The identity provider's user record as the handler reads it:
`user.user.email` and `user.user.user_metadata['first_name']` (`none`
models the key being absent, which raises KeyError). -/
structure AuthUser where
  email : String
  user_metadata_first_name : Option String
deriving Repr, DecidableEq

/-- A Stripe product object: `product['name']`. -/
structure StripeProduct where
  name : String
deriving Repr, DecidableEq

/-- External collaborators.  Each retrieval returns `none` to model the
client raising (e.g. resource not found); `mailer_send` models
`mailer.send(mail_body)` for a given recipient, returning the response
string or raising (`Except.error`). -/
structure Env where
  retrieve_session : String → Option StripeSession
  retrieve_subscription : String → Option StripeSubscription
  retrieve_price : String → Option StripePrice
  retrieve_product : String → Option StripeProduct
  get_user_by_id : String → Option AuthUser
  mailer_send : String → Except String String

/-- Template data passed to send_new_subscription_email.  The source
formats `price` as a display string from the unit amount and currency;
the raw fields are carried here (string formatting has no bearing on
any stored state). -/
structure SubscriptionDetails where
  plan_name : String
  unit_amount : Int
  currency : String
deriving Repr, DecidableEq

/-- Return value of send_new_subscription_email: the function catches
every exception, so it always RETURNS one of these (never raises).
`success` is the `{"status": 200, "response": ...}` dict, `failed` the
`{"response": ...}` dict for a non-202 response, `errored` the
`{"status": 500, "error": ...}` dict from the except branch. -/
inductive EmailResult where
  | success (resp : String)
  | failed (resp : String)
  | errored (msg : String)
deriving Repr, DecidableEq

/-- email_processor.send_new_subscription_email: sends via the mail
gateway; a non-`'202'` (stripped) response is reported as `failed`, an
exception from the client is caught and reported as `errored`.  Total:
the Lean type itself records that this function never raises. -/
def send_new_subscription_email (env : Env) (to_email : String)
    (_first_name : String) (_details : SubscriptionDetails) : EmailResult :=
  match env.mailer_send to_email with
  | .error e => .errored e
  | .ok resp => if resp.trim == "202" then .success resp else .failed resp

/-- One attempted notification email, with the value the send function
returned. -/
structure EmailAttempt where
  to_email : String
  first_name : String
  details : SubscriptionDetails
  result : EmailResult
deriving Repr, DecidableEq

/-- Result of running a handler (or the router): the database as left
behind (also on a raise — Supabase calls already executed are not
rolled back), the emails attempted, and `some msg` when the handler
re-raised an exception. -/
structure RouterOutcome where
  db : DB
  emails : List EmailAttempt
  error : Option String
deriving Repr

/-- Python truthiness of an `Optional[int]`: `None` and `0` are falsy. -/
def optTruthy : Option Int → Bool
  | none => false
  | some n => !(n == 0)

/-- io_db.update_checkout_session: `update({"status": status})
.eq("session_id", session_id)`; returns `response.data[0]` when the
update matched rows, else `None`. -/
def update_checkout_session (db : DB) (session_id : String) (status : String) :
    DB × Option CheckoutSessionRow :=
  let updated := db.checkout_sessions.map fun r =>
    if r.session_id == session_id then { r with status := status } else r
  let data := updated.filter fun r => r.session_id == session_id
  ({ db with checkout_sessions := updated }, data.head?)

/-- io_db.insert_user_subscription: first resolves `user_id` by
selecting `checkout_sessions` rows with matching `customer_id` (raises
"User ID not found in checkout session" when empty), then inserts a row
whose `cancelled_at` is the literal `None`. -/
def insert_user_subscription (db : DB) (plan_id price_id customer_id subscription_id status : String)
    (subscribed_at : Int) (last_payment_date next_payment_date : Option Int) :
    Except String (DB × UserSubscriptionRow) :=
  match db.checkout_sessions.filter (fun r => r.customer_id == customer_id) with
  | [] => .error "User ID not found in checkout session"
  | r :: _ =>
    let row : UserSubscriptionRow :=
      { user_id := r.user_id, plan_id := plan_id, price_id := price_id,
        customer_id := customer_id, subscription_id := subscription_id,
        status := status, subscribed_at := subscribed_at,
        last_payment_date := last_payment_date,
        next_payment_date := next_payment_date, cancelled_at := none }
    .ok ({ db with user_subscriptions := db.user_subscriptions ++ [row] }, row)

/-- The partial update dict built by io_db.update_user_subscription:
`{"status": status}` always; each optional field added only when the
argument is truthy (a `datetime` argument is always truthy, so the
tests are `isSome`). -/
def userSubscriptionUpdateData (status : String)
    (last_payment_date next_payment_date cancelled_at : Option Int)
    (r : UserSubscriptionRow) : UserSubscriptionRow :=
  let r1 := { r with status := status }
  let r2 := if cancelled_at.isSome then { r1 with cancelled_at := cancelled_at } else r1
  let r3 := if last_payment_date.isSome then { r2 with last_payment_date := last_payment_date } else r2
  if next_payment_date.isSome then { r3 with next_payment_date := next_payment_date } else r3

/-- io_db.update_user_subscription: applies the partial update dict to
every row with matching `subscription_id`; returns `response.data[0]`
when rows matched, else `None` (no exception on an empty match). -/
def update_user_subscription (db : DB) (subscription_id : String) (status : String)
    (last_payment_date next_payment_date cancelled_at : Option Int) :
    DB × Option UserSubscriptionRow :=
  let updated := db.user_subscriptions.map fun r =>
    if r.subscription_id == subscription_id then
      userSubscriptionUpdateData status last_payment_date next_payment_date cancelled_at r
    else r
  let data := updated.filter fun r => r.subscription_id == subscription_id
  ({ db with user_subscriptions := updated }, data.head?)

/-- webhook_handlers.handle_checkout_completed: re-fetches the session
from the provider by the payload object's id and writes the FETCHED
status through update_checkout_session, matched by the fetched
session's id.  A retrieval failure re-raises with the state untouched. -/
def handle_checkout_completed (env : Env) (ev : WebhookEvent) (db : DB) : RouterOutcome :=
  match env.retrieve_session ev.data.objId with
  | none => ⟨db, [], some "stripe session retrieve failed"⟩
  | some session =>
    let (db1, _) := update_checkout_session db session.id session.status
    ⟨db1, [], none⟩

/-- webhook_handlers.handle_subscription_created, lines 64-136.  Mirrors
the source order: re-fetch the subscription; the debug log evaluates
`items.data[0].price.metadata['plan_id']` (IndexError / KeyError when
absent); resolve user_id from checkout_sessions by customer_id (raise
when empty); insert_user_subscription (which repeats that lookup);
identity lookup — `none` returns SOFTLY with the row kept; read
`first_name` from user metadata (KeyError when absent); fetch price and
product for templating; send the notification email (never raises). -/
def handle_subscription_created (env : Env) (ev : WebhookEvent) (db : DB) : RouterOutcome :=
  match env.retrieve_subscription ev.data.objId with
  | none => ⟨db, [], some "stripe subscription retrieve failed"⟩
  | some sub =>
    match sub.items.head? with
    | none => ⟨db, [], some "IndexError: list index out of range"⟩
    | some item0 =>
      match item0.price.metadata_plan_id with
      | none => ⟨db, [], some "KeyError: plan_id"⟩
      | some plan_id =>
        match db.checkout_sessions.filter (fun r => r.customer_id == sub.customer) with
        | [] => ⟨db, [], some "User ID not found in checkout session"⟩
        | r :: _ =>
          let user_id := r.user_id
          match insert_user_subscription db plan_id item0.price.id sub.customer sub.id
              sub.status sub.created (some item0.current_period_start)
              (some item0.current_period_end) with
          | .error e => ⟨db, [], some e⟩
          | .ok (db1, _row) =>
            match env.get_user_by_id user_id with
            | none => ⟨db1, [], none⟩
            | some user =>
              match user.user_metadata_first_name with
              | none => ⟨db1, [], some "KeyError: first_name"⟩
              | some first_name =>
                match env.retrieve_price item0.price.id with
                | none => ⟨db1, [], some "stripe price retrieve failed"⟩
                | some price =>
                  match env.retrieve_product price.product with
                  | none => ⟨db1, [], some "stripe product retrieve failed"⟩
                  | some product =>
                    let details : SubscriptionDetails :=
                      ⟨product.name, price.unit_amount, price.currency⟩
                    let result := send_new_subscription_email env user.email first_name details
                    ⟨db1, [⟨user.email, first_name, details, result⟩], none⟩

/-- webhook_handlers.handle_subscription_updated, lines 138-158: trusts
the subscription object embedded in the payload (no re-fetch; `env` is
never consulted).  Reads `items.data[0]` (IndexError when empty);
passes `cancelled_at` only when `subscription.canceled_at` is truthy
(`None` and `0` are both falsy); after the update, the success log line
evaluates `subscription.metadata['user_id']` (KeyError when absent,
re-raised AFTER the update has been applied). -/
def handle_subscription_updated (_env : Env) (ev : WebhookEvent) (db : DB) : RouterOutcome :=
  match ev.data with
  | .checkout _ => ⟨db, [], some "KeyError: items"⟩
  | .subscription sub =>
    match sub.items.head? with
    | none => ⟨db, [], some "IndexError: list index out of range"⟩
    | some item0 =>
      let ca := if optTruthy sub.canceled_at then sub.canceled_at else none
      let (db1, _) := update_user_subscription db sub.id sub.status
        (some item0.current_period_start) (some item0.current_period_end) ca
      match sub.metadata_user_id with
      | none => ⟨db1, [], some "KeyError: user_id"⟩
      | some _ => ⟨db1, [], none⟩

/-- webhook_handlers.webhook_router: exact string dispatch on
`event.type`; `customer.subscription.updated` and `...deleted` share
the update handler; any other type is logged and the function returns
normally.  The surrounding try/except re-raises, so handler errors pass
through unchanged. -/
def webhook_router (env : Env) (ev : WebhookEvent) (db : DB) : RouterOutcome :=
  if ev.type == "checkout.session.completed" then
    handle_checkout_completed env ev db
  else if ev.type == "customer.subscription.created" then
    handle_subscription_created env ev db
  else if ev.type == "customer.subscription.updated" then
    handle_subscription_updated env ev db
  else if ev.type == "customer.subscription.deleted" then
    handle_subscription_updated env ev db
  else
    ⟨db, [], none⟩

/-- main.stripe_webhook: `construct` is the outcome of
`stripe.Webhook.construct_event` on this request's body, signature
header and secret — `Except.error` models SignatureVerificationError
(or a decode failure).  On verification failure the endpoint raises
HTTP 400 before any handler is dispatched; a handler exception also
yields 400 (with whatever state the handler left behind); otherwise
200. -/
def stripe_webhook (env : Env) (construct : Except String WebhookEvent) (db : DB) :
    Nat × DB × List EmailAttempt :=
  match construct with
  | .error _ => (400, db, [])
  | .ok ev =>
    let out := webhook_router env ev db
    match out.error with
    | some _ => (400, out.db, out.emails)
    | none => (200, out.db, out.emails)

/-! ### Concrete fixtures (mirroring the spec's end-to-end scenario §8) -/

def samplePrice : StripePrice :=
  { id := "price_1", metadata_plan_id := some "plan_basic", product := "prod_1",
    unit_amount := 999, currency := "gbp" }

def sampleItem : StripeSubItem :=
  { price := samplePrice, current_period_start := 1700000000, current_period_end := 1702592000 }

def sampleSub : StripeSubscription :=
  { id := "sub_1", customer := "cus_1", status := "active", created := 1700000000,
    canceled_at := none, metadata_user_id := some "u1", items := [sampleItem] }

def sampleCS : CheckoutSessionRow :=
  { session_id := "cs_1", user_id := "u1", customer_id := "cus_1",
    price_id := "price_1", status := "pending" }

def sampleDB : DB :=
  { newsletter_subscribers := [], checkout_sessions := [sampleCS],
    user_subscriptions := [], user_addresses := [] }

def sampleEnv : Env :=
  { retrieve_session := fun i => if i == "cs_1" then some { id := "cs_1", status := "complete" } else none,
    retrieve_subscription := fun i => if i == "sub_1" then some sampleSub else none,
    retrieve_price := fun i => if i == "price_1" then some samplePrice else none,
    retrieve_product := fun i => if i == "prod_1" then some { name := "Basic Plan" } else none,
    get_user_by_id := fun i => if i == "u1" then some { email := "u1@example.test", user_metadata_first_name := some "Ada" } else none,
    mailer_send := fun _ => .ok "202" }

/-! ### Helper lemmas -/

/-- Net effect of the sequential partial-update application: one record
update touching exactly status and the three conditionally-present
date fields. -/
theorem userSubscriptionUpdateData_eq (st : String) (lp np ca : Option Int)
    (r : UserSubscriptionRow) :
    userSubscriptionUpdateData st lp np ca r =
      { r with
        status := st
        cancelled_at := if ca.isSome then ca else r.cancelled_at
        last_payment_date := if lp.isSome then lp else r.last_payment_date
        next_payment_date := if np.isSome then np else r.next_payment_date } := by
  unfold userSubscriptionUpdateData
  cases ca <;> cases lp <;> cases np <;> rfl

/-- A map that fixes every element of a list is the identity. -/
theorem list_map_eq_self {α : Type} (f : α → α) (l : List α)
    (h : ∀ a ∈ l, f a = a) : l.map f = l := by
  induction l with
  | nil => rfl
  | cons x xs ih =>
    simp only [List.map_cons, h x (by simp)]
    rw [ih fun a ha => h a (by simp [ha])]

/-! ### Claims -/

/-- C3: a webhook delivery whose signature fails verification is
rejected with HTTP 400 and the persisted state — every collection — is
exactly as before the request: no handler runs, no mutation, no email. -/
theorem C3_invalid_signature_rejected_state_unchanged (env : Env) (db : DB) (msg : String) :
    stripe_webhook env (.error msg) db = (400, db, []) := rfl

/-- C7: the router dispatches on `event.type` by exact string match:
`checkout.session.completed` to the checkout handler,
`customer.subscription.created` to the creation handler, both
`customer.subscription.updated` and `customer.subscription.deleted` to
the same update handler; any other type invokes no handler and the
router returns normally with the state untouched and no error. -/
theorem C7_router_exact_dispatch (env : Env) (ev : WebhookEvent) (db : DB) :
    (ev.type = "checkout.session.completed" →
      webhook_router env ev db = handle_checkout_completed env ev db) ∧
    (ev.type = "customer.subscription.created" →
      webhook_router env ev db = handle_subscription_created env ev db) ∧
    (ev.type = "customer.subscription.updated" →
      webhook_router env ev db = handle_subscription_updated env ev db) ∧
    (ev.type = "customer.subscription.deleted" →
      webhook_router env ev db = handle_subscription_updated env ev db) ∧
    (ev.type ∉ (["checkout.session.completed", "customer.subscription.created",
        "customer.subscription.updated", "customer.subscription.deleted"] : List String) →
      webhook_router env ev db = ⟨db, [], none⟩) := by
  refine ⟨fun h => ?_, fun h => ?_, fun h => ?_, fun h => ?_, fun h => ?_⟩ <;>
    simp only [List.mem_cons, List.not_mem_nil, not_or] at * <;>
    simp [webhook_router, h]

/-- C7 witness: a delivery of an unrecognized type invokes no handler
and leaves the state untouched. -/
theorem C7_router_exact_dispatch_witness :
    ({ id := "evt_9", type := "invoice.paid", data := .subscription sampleSub,
       created := 0 } : WebhookEvent).type ∉
      (["checkout.session.completed", "customer.subscription.created",
        "customer.subscription.updated", "customer.subscription.deleted"] : List String) ∧
    webhook_router sampleEnv
      { id := "evt_9", type := "invoice.paid", data := .subscription sampleSub, created := 0 }
      sampleDB = ⟨sampleDB, [], none⟩ :=
  ⟨by decide, (C7_router_exact_dispatch sampleEnv
      { id := "evt_9", type := "invoice.paid", data := .subscription sampleSub, created := 0 }
      sampleDB).2.2.2.2 (by decide)⟩

/-- The row the §8 end-to-end scenario expects after sub_1 is created. -/
def sampleSubRow : UserSubscriptionRow :=
  { user_id := "u1", plan_id := "plan_basic", price_id := "price_1",
    customer_id := "cus_1", subscription_id := "sub_1", status := "active",
    subscribed_at := 1700000000, last_payment_date := some 1700000000,
    next_payment_date := some 1702592000, cancelled_at := none }

/-- C9: update_user_subscription touches only status (always) and
cancelled_at / last_payment_date / next_payment_date (each only when
the argument is non-None); rows with a different subscription_id, the
identity fields of matched rows, and every other collection are left
exactly as they were. -/
theorem C9_update_user_subscription_frame (db : DB) (sid st : String)
    (lp np ca : Option Int) :
    ((update_user_subscription db sid st lp np ca).1.newsletter_subscribers =
      db.newsletter_subscribers) ∧
    ((update_user_subscription db sid st lp np ca).1.checkout_sessions =
      db.checkout_sessions) ∧
    ((update_user_subscription db sid st lp np ca).1.user_addresses =
      db.user_addresses) ∧
    ((update_user_subscription db sid st lp np ca).1.user_subscriptions =
      db.user_subscriptions.map fun r =>
        if r.subscription_id == sid then
          { r with
            status := st
            cancelled_at := if ca.isSome then ca else r.cancelled_at
            last_payment_date := if lp.isSome then lp else r.last_payment_date
            next_payment_date := if np.isSome then np else r.next_payment_date }
        else r) ∧
    (∀ r : UserSubscriptionRow,
      (userSubscriptionUpdateData st lp np ca r).user_id = r.user_id ∧
      (userSubscriptionUpdateData st lp np ca r).plan_id = r.plan_id ∧
      (userSubscriptionUpdateData st lp np ca r).price_id = r.price_id ∧
      (userSubscriptionUpdateData st lp np ca r).customer_id = r.customer_id ∧
      (userSubscriptionUpdateData st lp np ca r).subscription_id = r.subscription_id ∧
      (userSubscriptionUpdateData st lp np ca r).subscribed_at = r.subscribed_at ∧
      (userSubscriptionUpdateData st lp np ca r).status = st ∧
      (ca = none → (userSubscriptionUpdateData st lp np ca r).cancelled_at = r.cancelled_at) ∧
      (lp = none → (userSubscriptionUpdateData st lp np ca r).last_payment_date = r.last_payment_date) ∧
      (np = none → (userSubscriptionUpdateData st lp np ca r).next_payment_date = r.next_payment_date)) := by
  refine ⟨rfl, rfl, rfl, ?_, ?_⟩
  · simp only [update_user_subscription, userSubscriptionUpdateData_eq]
  · intro r
    rw [userSubscriptionUpdateData_eq]
    refine ⟨rfl, rfl, rfl, rfl, rfl, rfl, rfl, ?_, ?_, ?_⟩ <;> rintro rfl <;> rfl

/-- C9 witness: with every optional argument absent, the matched row's
dates and cancellation timestamp are preserved. -/
theorem C9_update_user_subscription_frame_witness :
    ((none : Option Int) = none ∧
      (userSubscriptionUpdateData "past_due" none none none sampleSubRow).cancelled_at =
        sampleSubRow.cancelled_at) ∧
    ((none : Option Int) = none ∧
      (userSubscriptionUpdateData "past_due" none none none sampleSubRow).last_payment_date =
        sampleSubRow.last_payment_date) :=
  ⟨⟨rfl, ((C9_update_user_subscription_frame sampleDB "sub_1" "past_due" none none
      none).2.2.2.2 sampleSubRow).2.2.2.2.2.2.2.1 rfl⟩,
   ⟨rfl, ((C9_update_user_subscription_frame sampleDB "sub_1" "past_due" none none
      none).2.2.2.2 sampleSubRow).2.2.2.2.2.2.2.2.1 rfl⟩⟩

/-- C10: every row that insert_user_subscription creates is created
with cancelled_at = null regardless of its arguments; any row of the
resulting collection either pre-existed or carries a null
cancelled_at, so a non-null cancelled_at can only appear through a
later update. -/
theorem C10_insert_creates_cancelled_at_null (db : DB)
    (plan price customer subid status : String) (subat : Int) (lp np : Option Int) :
    ∀ db' row, insert_user_subscription db plan price customer subid status subat lp np =
        .ok (db', row) →
      row.cancelled_at = none ∧
      db'.user_subscriptions = db.user_subscriptions ++ [row] ∧
      ∀ r ∈ db'.user_subscriptions, r ∈ db.user_subscriptions ∨ r.cancelled_at = none := by
  intro db' row h
  unfold insert_user_subscription at h
  cases hf : db.checkout_sessions.filter (fun r => r.customer_id == customer) with
  | nil => rw [hf] at h; exact absurd h (by simp)
  | cons c rest =>
    rw [hf] at h
    simp only [Except.ok.injEq, Prod.mk.injEq] at h
    obtain ⟨hdb, hrow⟩ := h
    subst hdb; subst hrow
    refine ⟨rfl, rfl, ?_⟩
    intro r hr
    rcases List.mem_append.mp hr with hold | hnew
    · exact Or.inl hold
    · right
      rcases List.mem_singleton.mp hnew with rfl
      rfl

/-- C10 witness: inserting the §8 scenario subscription into the sample
state creates exactly the expected row, with a null cancelled_at. -/
theorem C10_insert_creates_cancelled_at_null_witness :
    sampleSubRow.cancelled_at = none ∧
    ({ sampleDB with user_subscriptions := [sampleSubRow] } : DB).user_subscriptions =
      sampleDB.user_subscriptions ++ [sampleSubRow] ∧
    ∀ r ∈ ({ sampleDB with user_subscriptions := [sampleSubRow] } : DB).user_subscriptions,
      r ∈ sampleDB.user_subscriptions ∨ r.cancelled_at = none :=
  C10_insert_creates_cancelled_at_null sampleDB "plan_basic" "price_1" "cus_1" "sub_1"
    "active" 1700000000 (some 1700000000) (some 1702592000)
    { sampleDB with user_subscriptions := [sampleSubRow] } sampleSubRow (by rfl)

/-- C4: handle_checkout_completed re-fetches the session from the
provider by the payload object's id and writes the FETCHED status into
the checkout_sessions rows matched by that session's id; the payload's
own status field never appears.  Afterwards every row with that
session_id carries the provider's reported status; nothing else
changes, and when no row matches the whole state is untouched (no row
is created). -/
theorem C4_checkout_completed_stores_provider_status (env : Env) (ev : WebhookEvent)
    (db : DB) (s : StripeSession)
    (hs : env.retrieve_session ev.data.objId = some s) :
    (handle_checkout_completed env ev db).error = none ∧
    (handle_checkout_completed env ev db).emails = [] ∧
    (handle_checkout_completed env ev db).db.newsletter_subscribers = db.newsletter_subscribers ∧
    (handle_checkout_completed env ev db).db.user_subscriptions = db.user_subscriptions ∧
    (handle_checkout_completed env ev db).db.user_addresses = db.user_addresses ∧
    ((handle_checkout_completed env ev db).db.checkout_sessions =
      db.checkout_sessions.map fun r =>
        if r.session_id == s.id then { r with status := s.status } else r) ∧
    (∀ r ∈ (handle_checkout_completed env ev db).db.checkout_sessions,
      r.session_id = s.id → r.status = s.status) ∧
    (handle_checkout_completed env ev db).db.checkout_sessions.length =
      db.checkout_sessions.length ∧
    ((∀ r ∈ db.checkout_sessions, r.session_id ≠ s.id) →
      (handle_checkout_completed env ev db).db = db) := by
  simp only [handle_checkout_completed, hs, update_checkout_session]
  refine ⟨trivial, trivial, trivial, trivial, trivial, trivial, ?_, ?_, ?_⟩
  · intro r hr hrs
    obtain ⟨a, _, rfl⟩ := List.mem_map.mp hr
    by_cases h : a.session_id == s.id
    · simp only [h, if_true]
    · rw [if_neg (by simp [h])] at hrs ⊢
      exact absurd (beq_iff_eq.mpr hrs) (by simp [h])
  · exact List.length_map _ _
  · intro hnone
    have hmap : (db.checkout_sessions.map fun r =>
        if r.session_id == s.id then { r with status := s.status } else r) =
          db.checkout_sessions :=
      list_map_eq_self _ _ fun a ha => if_neg (by simp [hnone a ha])
    rw [hmap]

/-- An event whose payload reports the session as still "open" — the
handler must overwrite with the provider's live status instead. -/
def sampleEvCheckout : WebhookEvent :=
  { id := "evt_1", type := "checkout.session.completed",
    data := .checkout { id := "cs_1", status := "open" }, created := 0 }

/-- C4 witness: for the §8 scenario the provider reports "complete" and
that is what gets stored, with every other collection untouched. -/
theorem C4_checkout_completed_stores_provider_status_witness :
    sampleEnv.retrieve_session sampleEvCheckout.data.objId =
      some { id := "cs_1", status := "complete" } ∧
    ((handle_checkout_completed sampleEnv sampleEvCheckout sampleDB).db.checkout_sessions =
      sampleDB.checkout_sessions.map fun r =>
        if r.session_id == "cs_1" then { r with status := "complete" } else r) ∧
    (handle_checkout_completed sampleEnv sampleEvCheckout sampleDB).error = none :=
  ⟨rfl,
   (C4_checkout_completed_stores_provider_status sampleEnv sampleEvCheckout sampleDB
      { id := "cs_1", status := "complete" } rfl).2.2.2.2.2.1,
   (C4_checkout_completed_stores_provider_status sampleEnv sampleEvCheckout sampleDB
      { id := "cs_1", status := "complete" } rfl).1⟩

/-- A subscription payload whose metadata carries no user_id key (the
backend's own checkout flow sets metadata on the customer and the
checkout session, not on the subscription). -/
def subNoMeta : StripeSubscription :=
  { id := "sub_2", customer := "cus_9", status := "active", created := 0,
    canceled_at := none, metadata_user_id := none, items := [sampleItem] }

def evUpdNoMeta : WebhookEvent :=
  { id := "evt_5", type := "customer.subscription.updated",
    data := .subscription subNoMeta, created := 0 }

/-- C5 counterexample: a customer.subscription.updated event whose
subscription_id matches no existing row, yet processing raises — after
the (empty) update, the success log line evaluates
`subscription.metadata['user_id']`, a KeyError when the key is absent,
and the handler re-raises it.  The claim's "completes without raising
an error" is therefore false as stated. -/
theorem C5_counterexample_missing_metadata_raises :
    (∀ r ∈ sampleDB.user_subscriptions, r.subscription_id ≠ subNoMeta.id) ∧
    (webhook_router sampleEnv evUpdNoMeta sampleDB).error.isSome = true := by
  constructor
  · intro r hr
    simp [sampleDB] at hr
  · rfl

/-- C5 (amended): for every customer.subscription.updated (or deleted)
event whose subscription_id matches no existing row — provided the
payload has a first line item and its metadata carries a user_id key
(both are read unconditionally, for the period bounds and the success
log) — processing completes without error, no row is created, and the
state is unchanged: the empty update result is treated as success. -/
theorem C5_missing_row_update_is_noop (env : Env) (ev : WebhookEvent) (db : DB)
    (sub : StripeSubscription) (item0 : StripeSubItem) (uid : String)
    (hdata : ev.data = .subscription sub)
    (hitem : sub.items.head? = some item0)
    (hmeta : sub.metadata_user_id = some uid)
    (hnone : ∀ r ∈ db.user_subscriptions, r.subscription_id ≠ sub.id) :
    handle_subscription_updated env ev db = ⟨db, [], none⟩ := by
  have hmap : ∀ (f : UserSubscriptionRow → UserSubscriptionRow),
      (db.user_subscriptions.map fun r =>
        if r.subscription_id == sub.id then f r else r) = db.user_subscriptions :=
    fun f => list_map_eq_self _ _ fun a ha => if_neg (by simp [hnone a ha])
  simp only [handle_subscription_updated, hdata, hitem, hmeta,
    update_user_subscription, hmap]

/-- A deleted-event payload for a subscription unknown to the store,
with well-populated metadata and line items. -/
def subUnknown : StripeSubscription :=
  { id := "sub_77", customer := "cus_77", status := "canceled", created := 0,
    canceled_at := some 1702000000, metadata_user_id := some "u77",
    items := [sampleItem] }

def evDelUnknown : WebhookEvent :=
  { id := "evt_7", type := "customer.subscription.deleted",
    data := .subscription subUnknown, created := 0 }

/-- C5 witness: the amended no-op holds at a concrete unknown
subscription. -/
theorem C5_missing_row_update_is_noop_witness :
    (evDelUnknown.data = .subscription subUnknown ∧
      subUnknown.items.head? = some sampleItem ∧
      subUnknown.metadata_user_id = some "u77" ∧
      ∀ r ∈ sampleDB.user_subscriptions, r.subscription_id ≠ subUnknown.id) ∧
    handle_subscription_updated sampleEnv evDelUnknown sampleDB = ⟨sampleDB, [], none⟩ :=
  ⟨⟨rfl, rfl, rfl, by intro r hr; simp [sampleDB] at hr⟩,
   C5_missing_row_update_is_noop sampleEnv evDelUnknown sampleDB subUnknown sampleItem
    "u77" rfl rfl rfl (by intro r hr; simp [sampleDB] at hr)⟩

/-- The sample state after sub_1 has been created (§8 end-to-end). -/
def dbWithSub : DB := { sampleDB with user_subscriptions := [sampleSubRow] }

/-- A deleted-event payload for sub_1 whose canceled_at is the Unix
timestamp 0 — non-null, but falsy in Python. -/
def subCancelZero : StripeSubscription :=
  { id := "sub_1", customer := "cus_1", status := "canceled", created := 0,
    canceled_at := some 0, metadata_user_id := some "u1", items := [sampleItem] }

def evDelZero : WebhookEvent :=
  { id := "evt_6", type := "customer.subscription.deleted",
    data := .subscription subCancelZero, created := 0 }

/-- C6 counterexample: the payload's top-level canceled_at is non-null
(the timestamp 0), the matching row IS updated (its status becomes
"canceled"), yet its cancelled_at stays null: the code tests
`if subscription.canceled_at`, Python truthiness, under which the
integer 0 counts as absent.  "cancelled_at is set if and only if
canceled_at is non-null" is therefore false as stated. -/
theorem C6_counterexample_cancel_epoch_not_stored :
    subCancelZero.canceled_at ≠ none ∧
    ((webhook_router sampleEnv evDelZero dbWithSub).db.user_subscriptions.map
      fun r => r.status) = ["canceled"] ∧
    ((webhook_router sampleEnv evDelZero dbWithSub).db.user_subscriptions.map
      fun r => r.cancelled_at) = [none] := by
  refine ⟨by decide, rfl, rfl⟩

/-- C6 (amended): the updated/deleted handler works from the
subscription object embedded in the payload — its result does not
depend on the external environment at all (no re-fetch) — and rewrites
every row keyed by the payload's subscription id so that status and
both period bounds come from the payload's first line item, while
cancelled_at is overwritten if and only if the payload's top-level
canceled_at is non-null AND nonzero (Python truthiness); rows with
other ids and all other collections stay untouched. -/
theorem C6_update_handler_payload_effect (env env2 : Env) (ev : WebhookEvent)
    (db : DB) (sub : StripeSubscription) (item0 : StripeSubItem)
    (hdata : ev.data = .subscription sub)
    (hitem : sub.items.head? = some item0) :
    ((handle_subscription_updated env ev db).db.user_subscriptions =
      db.user_subscriptions.map fun r =>
        if r.subscription_id == sub.id then
          { r with
            status := sub.status
            last_payment_date := some item0.current_period_start
            next_payment_date := some item0.current_period_end
            cancelled_at := if optTruthy sub.canceled_at then sub.canceled_at
              else r.cancelled_at }
        else r) ∧
    (handle_subscription_updated env ev db).db.checkout_sessions = db.checkout_sessions ∧
    (handle_subscription_updated env ev db).db.newsletter_subscribers =
      db.newsletter_subscribers ∧
    (handle_subscription_updated env ev db).db.user_addresses = db.user_addresses ∧
    (handle_subscription_updated env ev db).emails = [] ∧
    handle_subscription_updated env ev db = handle_subscription_updated env2 ev db := by
  have hfun : ∀ r : UserSubscriptionRow,
      userSubscriptionUpdateData sub.status (some item0.current_period_start)
        (some item0.current_period_end)
        (if optTruthy sub.canceled_at then sub.canceled_at else none) r =
      { r with
        status := sub.status
        last_payment_date := some item0.current_period_start
        next_payment_date := some item0.current_period_end
        cancelled_at := if optTruthy sub.canceled_at then sub.canceled_at
          else r.cancelled_at } := by
    intro r
    rw [userSubscriptionUpdateData_eq]
    cases hca : sub.canceled_at with
    | none => rfl
    | some n =>
      by_cases hn : n = 0
      · subst hn; rfl
      · simp [optTruthy, hn]
  cases hm : sub.metadata_user_id <;>
    simp only [handle_subscription_updated, hdata, hitem, hm,
      update_user_subscription, hfun] <;>
    exact ⟨trivial, trivial, trivial, trivial, trivial, trivial⟩

/-- A deleted-event payload for sub_1 with a genuine cancellation
timestamp. -/
def subUnknownCancelled : StripeSubscription :=
  { id := "sub_1", customer := "cus_1", status := "canceled", created := 0,
    canceled_at := some 1702000000, metadata_user_id := some "u1",
    items := [sampleItem] }

/-- C6 witness: a genuine cancellation (non-null, nonzero canceled_at)
of sub_1 updates the row in place from the payload. -/
theorem C6_update_handler_payload_effect_witness :
    (({ id := "evt_8", type := "customer.subscription.deleted",
        data := .subscription subUnknownCancelled, created := 0 } : WebhookEvent).data =
      .subscription subUnknownCancelled ∧
      subUnknownCancelled.items.head? = some sampleItem) ∧
    (handle_subscription_updated sampleEnv
      { id := "evt_8", type := "customer.subscription.deleted",
        data := .subscription subUnknownCancelled, created := 0 }
      dbWithSub).db.user_subscriptions =
      dbWithSub.user_subscriptions.map fun r =>
        if r.subscription_id == subUnknownCancelled.id then
          { r with
            status := subUnknownCancelled.status
            last_payment_date := some sampleItem.current_period_start
            next_payment_date := some sampleItem.current_period_end
            cancelled_at := if optTruthy subUnknownCancelled.canceled_at then
                subUnknownCancelled.canceled_at
              else r.cancelled_at }
        else r :=
  ⟨⟨rfl, rfl⟩,
   (C6_update_handler_payload_effect sampleEnv sampleEnv
      { id := "evt_8", type := "customer.subscription.deleted",
        data := .subscription subUnknownCancelled, created := 0 }
      dbWithSub subUnknownCancelled sampleItem rfl rfl).1⟩

/-- C1: for a customer.subscription.created event the stored user_id is
never taken from the webhook payload: when a row is inserted its
user_id is the user_id of the first checkout_sessions row whose
customer_id equals the re-fetched subscription's customer (the payload
carries no identity that is consulted), and when no checkout_sessions
row matches, processing raises and the state — in particular
user_subscriptions — is exactly as before. -/
theorem C1_user_id_resolved_via_checkout_join (env : Env) (ev : WebhookEvent)
    (db : DB) (sub : StripeSubscription)
    (hsub : env.retrieve_subscription ev.data.objId = some sub) :
    (db.checkout_sessions.filter (fun r => r.customer_id == sub.customer) = [] →
      (handle_subscription_created env ev db).error.isSome = true ∧
      (handle_subscription_created env ev db).db = db) ∧
    (∀ cs rest item0 plan_id,
      db.checkout_sessions.filter (fun r => r.customer_id == sub.customer) = cs :: rest →
      sub.items.head? = some item0 →
      item0.price.metadata_plan_id = some plan_id →
      (handle_subscription_created env ev db).db.user_subscriptions =
        db.user_subscriptions ++
          [{ user_id := cs.user_id
             plan_id := plan_id
             price_id := item0.price.id
             customer_id := sub.customer
             subscription_id := sub.id
             status := sub.status
             subscribed_at := sub.created
             last_payment_date := some item0.current_period_start
             next_payment_date := some item0.current_period_end
             cancelled_at := none }]) := by
  constructor
  · intro hempty
    simp only [handle_subscription_created, hsub]
    cases hi : sub.items.head? with
    | none => simp [hi]
    | some item0 =>
      cases hp : item0.price.metadata_plan_id with
      | none => simp [hi, hp]
      | some plan_id => simp [hi, hp, hempty]
  · intro cs rest item0 plan_id hfil hitem hplan
    simp only [handle_subscription_created, hsub, hitem, hplan,
      insert_user_subscription, hfil]
    cases hu : env.get_user_by_id cs.user_id with
    | none => simp [hu]
    | some user =>
      cases hfn : user.user_metadata_first_name with
      | none => simp [hu, hfn]
      | some fn =>
        cases hpr : env.retrieve_price item0.price.id with
        | none => simp [hu, hfn, hpr]
        | some price =>
          cases hpd : env.retrieve_product price.product with
          | none => simp [hu, hfn, hpr, hpd]
          | some product => simp [hu, hfn, hpr, hpd]

/-- The §8 scenario creation event for sub_1. -/
def evCreated : WebhookEvent :=
  { id := "evt_2", type := "customer.subscription.created",
    data := .subscription sampleSub, created := 1700000000 }

/-- C1 witness: in the §8 scenario, the inserted row's user_id is "u1",
taken from the cs_1 checkout-session row joined on cus_1. -/
theorem C1_user_id_resolved_via_checkout_join_witness :
    (sampleEnv.retrieve_subscription evCreated.data.objId = some sampleSub ∧
      sampleDB.checkout_sessions.filter
        (fun r => r.customer_id == sampleSub.customer) = [sampleCS] ∧
      sampleSub.items.head? = some sampleItem ∧
      sampleItem.price.metadata_plan_id = some "plan_basic") ∧
    (handle_subscription_created sampleEnv evCreated sampleDB).db.user_subscriptions =
      sampleDB.user_subscriptions ++ [sampleSubRow] :=
  ⟨⟨rfl, rfl, rfl, rfl⟩,
   (C1_user_id_resolved_via_checkout_join sampleEnv evCreated sampleDB sampleSub
      rfl).2 sampleCS [] sampleItem "plan_basic" rfl rfl rfl⟩

/-- The row a successful creation inserts: user_id resolved via the
checkout-session join, every other field from the re-fetched
subscription, cancelled_at null. -/
def createdSubscriptionRow (sub : StripeSubscription) (item0 : StripeSubItem)
    (plan_id user_id : String) : UserSubscriptionRow :=
  { user_id := user_id, plan_id := plan_id, price_id := item0.price.id,
    customer_id := sub.customer, subscription_id := sub.id, status := sub.status,
    subscribed_at := sub.created, last_payment_date := some item0.current_period_start,
    next_payment_date := some item0.current_period_end, cancelled_at := none }

/-- C8: once the UserSubscription insert has succeeded, email-related
failures are soft.  (a) If the identity-provider lookup finds no user,
the handler returns without raising, no email is attempted, and the
inserted row stays.  (b) If the mail client raises while sending, the
send function converts it into an `errored` return VALUE (it has no
raising outcome at all), the handler still returns without error, and
the inserted row stays in place — no rollback. -/
theorem C8_email_failures_are_soft (env : Env) (ev : WebhookEvent) (db : DB)
    (sub : StripeSubscription) (item0 : StripeSubItem) (plan_id : String)
    (cs : CheckoutSessionRow) (rest : List CheckoutSessionRow)
    (hsub : env.retrieve_subscription ev.data.objId = some sub)
    (hitem : sub.items.head? = some item0)
    (hplan : item0.price.metadata_plan_id = some plan_id)
    (hfil : db.checkout_sessions.filter (fun r => r.customer_id == sub.customer) =
      cs :: rest) :
    (env.get_user_by_id cs.user_id = none →
      (handle_subscription_created env ev db).error = none ∧
      (handle_subscription_created env ev db).emails = [] ∧
      (handle_subscription_created env ev db).db.user_subscriptions =
        db.user_subscriptions ++ [createdSubscriptionRow sub item0 plan_id cs.user_id]) ∧
    (∀ user fn price product msg,
      env.get_user_by_id cs.user_id = some user →
      user.user_metadata_first_name = some fn →
      env.retrieve_price item0.price.id = some price →
      env.retrieve_product price.product = some product →
      env.mailer_send user.email = .error msg →
      send_new_subscription_email env user.email fn
        ⟨product.name, price.unit_amount, price.currency⟩ = .errored msg ∧
      (handle_subscription_created env ev db).error = none ∧
      (handle_subscription_created env ev db).db.user_subscriptions =
        db.user_subscriptions ++ [createdSubscriptionRow sub item0 plan_id cs.user_id] ∧
      (handle_subscription_created env ev db).emails =
        [⟨user.email, fn, ⟨product.name, price.unit_amount, price.currency⟩,
          .errored msg⟩]) := by
  constructor
  · intro huser
    simp only [handle_subscription_created, hsub, hitem, hplan,
      insert_user_subscription, hfil, huser]
    simp [createdSubscriptionRow]
  · intro user fn price product msg huser hfn hprice hprod hsend
    have hmail : send_new_subscription_email env user.email fn
        ⟨product.name, price.unit_amount, price.currency⟩ = .errored msg := by
      simp only [send_new_subscription_email, hsend]
    refine ⟨hmail, ?_⟩
    simp only [handle_subscription_created, hsub, hitem, hplan,
      insert_user_subscription, hfil, huser, hfn, hprice, hprod, hmail]
    simp [createdSubscriptionRow]

def sampleUser : AuthUser :=
  { email := "u1@example.test", user_metadata_first_name := some "Ada" }

def sampleProduct : StripeProduct := { name := "Basic Plan" }

/-- The sample environment with a mail gateway that raises on send. -/
def envMailFail : Env := { sampleEnv with mailer_send := fun _ => .error "boom" }

/-- C8 witness: with the mail client raising, the creation pipeline
still returns success, the inserted row stays, and the send is recorded
as an errored return value. -/
theorem C8_email_failures_are_soft_witness :
    (envMailFail.retrieve_subscription evCreated.data.objId = some sampleSub ∧
      sampleSub.items.head? = some sampleItem ∧
      sampleItem.price.metadata_plan_id = some "plan_basic" ∧
      sampleDB.checkout_sessions.filter
        (fun r => r.customer_id == sampleSub.customer) = sampleCS :: [] ∧
      envMailFail.get_user_by_id sampleCS.user_id = some sampleUser ∧
      sampleUser.user_metadata_first_name = some "Ada" ∧
      envMailFail.retrieve_price sampleItem.price.id = some samplePrice ∧
      envMailFail.retrieve_product samplePrice.product = some sampleProduct ∧
      envMailFail.mailer_send sampleUser.email = .error "boom") ∧
    (send_new_subscription_email envMailFail sampleUser.email "Ada"
        ⟨sampleProduct.name, samplePrice.unit_amount, samplePrice.currency⟩ =
      .errored "boom" ∧
      (handle_subscription_created envMailFail evCreated sampleDB).error = none ∧
      (handle_subscription_created envMailFail evCreated sampleDB).db.user_subscriptions =
        sampleDB.user_subscriptions ++
          [createdSubscriptionRow sampleSub sampleItem "plan_basic" sampleCS.user_id] ∧
      (handle_subscription_created envMailFail evCreated sampleDB).emails =
        [⟨sampleUser.email, "Ada",
          ⟨sampleProduct.name, samplePrice.unit_amount, samplePrice.currency⟩,
          .errored "boom"⟩]) :=
  ⟨⟨rfl, rfl, rfl, rfl, rfl, rfl, rfl, rfl, rfl⟩,
   (C8_email_failures_are_soft envMailFail evCreated sampleDB sampleSub sampleItem
      "plan_basic" sampleCS [] rfl rfl rfl rfl).2 sampleUser "Ada" samplePrice
      sampleProduct "boom" rfl rfl rfl rfl rfl⟩

/-- C2: replaying the §8 scenario's customer.subscription.created event
against a state that already holds the sub_1 row performs a second,
unconditional insert: the run reports success and the store ends up
with TWO rows whose subscription_id is "sub_1".  This exhibits the
missing idempotency guard the spec flags as a regression target; the
claim's required behaviour does not hold on this code. -/
theorem C2_replay_inserts_duplicate_row :
    (webhook_router sampleEnv evCreated dbWithSub).error = none ∧
    ((webhook_router sampleEnv evCreated dbWithSub).db.user_subscriptions.filter
      fun r => r.subscription_id == "sub_1").length = 2 := by
  exact ⟨rfl, rfl⟩
